import Mathlib

/-!
Shallow embedding of the clamped-numbers library (src/clamped_numbers.hh,
src/clamped_numbers.cc) and theorems about its claims.

Modelling conventions:
- The generic numeric parameter is embedded per domain: the Integer domain
  (`ClampedInteger`) and the generic base (`BasicClampedNumber`) over
  unbounded `Int` (the templates accept arbitrary-precision numeric types;
  fixed-width signed overflow is out of scope), the Natural domain
  (`ClampedNaturalNumber`) over `Nat` with an explicit width parameter `w`
  so that the C++ unsigned wrap-around (arithmetic modulo `2 ^ w`) of the
  stored value is kept, and the Decimal domain (`ClampedDecimal`)
  polymorphically, which is faithful because its final-revision operators
  perform no arithmetic at all on the wrapped type.
- C++ signed division and remainder truncate toward zero: `Int.tdiv` and
  `Int.tmod`.
- An operation whose C++ execution is undefined is embedded as `Option`,
  returning `none` exactly on the undefined paths: a division or remainder
  expression evaluated with a zero right operand, and control flowing off
  the end of a non-void function without a return statement.
-/

namespace Clamped

/-- Embeds the enumeration `ClampReaction` of clamped_numbers.cc lines 7-13:
the three-way clamping verdict used while modifying a number. -/
inductive ClampReaction where
  | MAXIMUM
  | MINIMUM
  | NONE
deriving DecidableEq, Repr

/-- Embeds the data of `BasicClampedNumber<NumT>` (clamped_numbers.hh lines
67-74): the stored value together with its inclusive bounds. -/
structure BasicClampedNumber (α : Type) where
  value : α
  minValue : α
  maxValue : α
deriving DecidableEq, Repr

/-- Embeds the constructor `BasicClampedNumber(value, min, max)`
(clamped_numbers.hh lines 95-98): the value is stored unchanged, the
requested minimum is kept when it is at most the value and replaced by the
value otherwise, and symmetrically for the maximum. -/
def BasicClampedNumber.construct {α : Type} [LinearOrder α]
    (value mn mx : α) : BasicClampedNumber α :=
  { value := value
    minValue := if mn ≤ value then mn else value
    maxValue := if mx ≥ value then mx else value }

/-- Embeds the setter `BasicClampedNumber::value(const NumT &newVal)`
(clamped_numbers.cc lines 15-24): the proposed value is clamped into the
current bounds and stored. -/
def BasicClampedNumber.setValue {α : Type} [LinearOrder α]
    (s : BasicClampedNumber α) (newVal : α) : BasicClampedNumber α :=
  if newVal < s.minValue then { s with value := s.minValue }
  else if newVal > s.maxValue then { s with value := s.maxValue }
  else { s with value := newVal }

/-- Embeds the setter `BasicClampedNumber::minValue(const NumT &newMin)`
(clamped_numbers.cc lines 26-31): the new minimum is adopted when it is at
most the current value, else the current value is stored as the minimum. -/
def BasicClampedNumber.setMinValue {α : Type} [LinearOrder α]
    (s : BasicClampedNumber α) (newMin : α) : BasicClampedNumber α :=
  if newMin ≤ s.value then { s with minValue := newMin }
  else { s with minValue := s.value }

/-- Embeds the setter `BasicClampedNumber::maxValue(const NumT &newMax)`
(clamped_numbers.cc lines 33-38): the new maximum is adopted when it is at
least the current value, else the current value is stored as the maximum. -/
def BasicClampedNumber.setMaxValue {α : Type} [LinearOrder α]
    (s : BasicClampedNumber α) (newMax : α) : BasicClampedNumber α :=
  if newMax ≥ s.value then { s with maxValue := newMax }
  else { s with maxValue := s.value }

/-- Embeds `BasicClampedNumber::minimize()` (clamped_numbers.hh lines
174-177): the value is set to the current minimum. -/
def BasicClampedNumber.minimize {α : Type} (s : BasicClampedNumber α) :
    BasicClampedNumber α :=
  { s with value := s.minValue }

/-- Embeds `BasicClampedNumber::maximize()` (clamped_numbers.hh lines
185-188): the value is set to the current maximum. -/
def BasicClampedNumber.maximize {α : Type} (s : BasicClampedNumber α) :
    BasicClampedNumber α :=
  { s with value := s.maxValue }

/-- Embeds `BasicClampedNumber::operator bool()` (clamped_numbers.hh lines
390-393): the explicit boolean conversion returns whether the stored value
equals zero. -/
def BasicClampedNumber.toBool {α : Type} [DecidableEq α] [Zero α]
    (s : BasicClampedNumber α) : Bool :=
  s.value = 0

/-- The Natural domain: `ClampedNaturalNumber<NatT>` wraps an unsigned
integral type, embedded as `Nat` values; the operators below carry the bit
width `w` of the wrapped type so that the unsigned wrap-around of C++
arithmetic (modulo `2 ^ w`) is kept. Stored values and operands are assumed
below `2 ^ w`. -/
abbrev ClampedNaturalNumber := BasicClampedNumber Nat

/-- The Integer domain: `ClampedInteger<IntT>` wraps a signed integral type,
embedded as unbounded `Int` (the template accepts arbitrary-precision
types). -/
abbrev ClampedInteger := BasicClampedNumber Int

/-- The Decimal domain: `ClampedDecimal<FloatT>` is embedded polymorphically
in the wrapped type, which is faithful because its final-revision operators
perform no arithmetic on the wrapped type at all. -/
abbrev ClampedDecimal (α : Type) := BasicClampedNumber α

/-- Embeds `ClampedNaturalNumber::operator+=` (clamped_numbers.cc lines
44-60): additions are discarded when the value already reaches the maximum
or the operand is zero; otherwise the value is increased when
`maxValue - value ≥ other` (in the reached branch `value < maxValue`, so
the unsigned C++ difference agrees with truncated `Nat` subtraction) and
clamped to the maximum otherwise. The update is taken modulo `2 ^ w`,
matching unsigned C++ arithmetic. -/
def ClampedNaturalNumber.addAssign (w : Nat) (s : ClampedNaturalNumber)
    (other : Nat) : ClampedNaturalNumber :=
  if s.value ≥ s.maxValue ∨ other = 0 then s
  else if s.maxValue - s.value ≥ other then
    { s with value := (s.value + other) % 2 ^ w }
  else { s with value := s.maxValue }

/-- Embeds `ClampedNaturalNumber::operator-=` (clamped_numbers.cc lines
62-78): subtractions are discarded when the value already reaches the
minimum or the operand is zero; otherwise the source subtracts when
`value - minValue ≤ other` (in the reached branch `value > minValue`, so
the unsigned C++ difference agrees with truncated `Nat` subtraction) and
clamps to the minimum otherwise. The performed update `value -= other` is
C++ unsigned subtraction, embedded as `(value + 2 ^ w - other) % 2 ^ w`
for operands below `2 ^ w`. -/
def ClampedNaturalNumber.subAssign (w : Nat) (s : ClampedNaturalNumber)
    (other : Nat) : ClampedNaturalNumber :=
  if s.value ≤ s.minValue ∨ other = 0 then s
  else if s.value - s.minValue ≤ other then
    { s with value := (s.value + 2 ^ w - other) % 2 ^ w }
  else { s with value := s.minValue }

/-- Embeds `ClampedNaturalNumber::operator*=` (clamped_numbers.cc lines
80-96): a zero operand or zero value stores zero directly; otherwise the
value is multiplied when `maxValue / value ≥ other` (the denominator is
nonzero in this branch) and clamped to the maximum otherwise. The update is
taken modulo `2 ^ w`, matching unsigned C++ arithmetic. -/
def ClampedNaturalNumber.mulAssign (w : Nat) (s : ClampedNaturalNumber)
    (other : Nat) : ClampedNaturalNumber :=
  if other = 0 ∨ s.value = 0 then { s with value := 0 }
  else if s.maxValue / s.value ≥ other then
    { s with value := (s.value * other) % 2 ^ w }
  else { s with value := s.maxValue }

/-- Embeds `ClampedNaturalNumber::operator/=` (clamped_numbers.cc lines
98-121). The whole body is guarded by `value != 0 && other != 1`; when that
guard fails, control flows off the end of the non-void operator without a
return statement, which is undefined behavior in C++, embedded as `none`.
Inside the guard, a zero divisor stores the maximum for a positive value
and zero otherwise; for a positive divisor (for an unsigned type
`other > 0` is the only remaining case) the source evaluates the pre-check
`value / minValue >= other` unconditionally, so a zero stored minimum makes
this a division by zero, undefined behavior in C++, embedded as `none`;
with a nonzero minimum the value is divided when the pre-check holds and
clamped to the minimum otherwise. -/
def ClampedNaturalNumber.divAssign (s : ClampedNaturalNumber)
    (other : Nat) : Option ClampedNaturalNumber :=
  if s.value ≠ 0 ∧ other ≠ 1 then
    if other = 0 then
      if s.value > 0 then some { s with value := s.maxValue }
      else some { s with value := 0 }
    else
      if s.minValue = 0 then none
      else if s.value / s.minValue ≥ other then
        some { s with value := s.value / other }
      else some { s with value := s.minValue }
  else none

/-- Embeds `ClampedNaturalNumber::operator%=` (clamped_numbers.cc lines
123-134): the source evaluates `value % other` with no guard, so a zero
operand is a remainder by zero, undefined behavior in C++, embedded as
`none`; otherwise the raw remainder is clamped into the bounds. -/
def ClampedNaturalNumber.modAssign (s : ClampedNaturalNumber)
    (other : Nat) : Option ClampedNaturalNumber :=
  if other = 0 then none
  else if s.value % other < s.minValue then some { s with value := s.minValue }
  else if s.value % other > s.maxValue then some { s with value := s.maxValue }
  else some { s with value := s.value % other }

/-- Embeds `addReactionInteger` (clamped_numbers.cc lines 140-151), called
with `other > 0`: with a nonnegative maximum and a negative current value
the verdict is `NONE` when `current + other ≤ max`, else `MAXIMUM`; in the
matching-signs case the verdict is `NONE` when `max - current ≥ other`,
else `MAXIMUM`. The third source parameter (the minimum) is unused. -/
def addReactionInteger (current other _mn mx : Int) : ClampReaction :=
  if mx ≥ 0 ∧ current < 0 then
    if current + other ≤ mx then ClampReaction.NONE else ClampReaction.MAXIMUM
  else
    if mx - current ≥ other then ClampReaction.NONE else ClampReaction.MAXIMUM

/-- Embeds `subtractReactionInteger` (clamped_numbers.cc lines 153-164),
called with `other > 0`: with a negative minimum and a nonnegative current
value the verdict is `NONE` when `current - other ≥ min`, else `MINIMUM`;
in the matching-signs case the source returns `NONE` when
`current - min ≤ other` and `MINIMUM` otherwise. The fourth source
parameter (the maximum) is unused. -/
def subtractReactionInteger (current other mn _mx : Int) : ClampReaction :=
  if mn < 0 ∧ current ≥ 0 then
    if current - other ≥ mn then ClampReaction.NONE else ClampReaction.MINIMUM
  else
    if current - mn ≤ other then ClampReaction.NONE else ClampReaction.MINIMUM

/-- Embeds `multiplyReactionInteger` (clamped_numbers.cc lines 166-199),
called with `current ≠ 0` and `other ≠ 0`, so every quotient below has a
nonzero denominator; C++ signed division truncates toward zero
(`Int.tdiv`). The trailing source statement `return ClampReaction::NONE` is
unreachable and omitted. -/
def multiplyReactionInteger (current other mn mx : Int) : ClampReaction :=
  if current > 0 then
    if other > 0 then
      if other ≥ mx then ClampReaction.MAXIMUM
      else if Int.tdiv mx current ≥ other then ClampReaction.NONE
      else ClampReaction.MAXIMUM
    else
      if mn ≥ 0 then ClampReaction.MINIMUM
      else if other ≤ mn then ClampReaction.MINIMUM
      else if Int.tdiv mn (-other) ≥ current then ClampReaction.NONE
      else ClampReaction.MINIMUM
  else
    if other > 0 then
      if Int.tdiv mn current ≥ other then ClampReaction.NONE
      else ClampReaction.MINIMUM
    else
      if other ≤ mn then ClampReaction.MINIMUM
      else if Int.tdiv mn current ≥ -other then ClampReaction.NONE
      else ClampReaction.MINIMUM

/-- Embeds `divideReactionInteger` (clamped_numbers.cc lines 201-232),
called with `current ≠ 0`, `other ≠ 0` and `other ≠ 1`, so every quotient
below has a nonzero denominator; C++ signed division truncates toward zero
(`Int.tdiv`). The trailing source statement `return ClampReaction::NONE` is
unreachable and omitted. -/
def divideReactionInteger (current other mn mx : Int) : ClampReaction :=
  if current > 0 then
    if other > 0 then
      if mn < 0 then ClampReaction.NONE
      else if Int.tdiv current other ≥ mn then ClampReaction.NONE
      else ClampReaction.MINIMUM
    else
      if mn ≥ 0 then ClampReaction.MINIMUM
      else if Int.tdiv current other ≥ mn then ClampReaction.NONE
      else ClampReaction.MINIMUM
  else
    if other > 0 then
      if Int.tdiv current other ≥ mn then ClampReaction.NONE
      else ClampReaction.MINIMUM
    else
      if mx < 0 then ClampReaction.MAXIMUM
      else if Int.tdiv current other ≤ mx then ClampReaction.NONE
      else ClampReaction.MAXIMUM

/-- Embeds the switch of `ClampedInteger::operator+=` on
`addReactionInteger` (clamped_numbers.cc lines 246-260), reached with
`other > 0`: the value is increased on `NONE` and clamped to the matching
bound otherwise. -/
def ClampedInteger.addSwitch (s : ClampedInteger) (other : Int) :
    ClampedInteger :=
  match addReactionInteger s.value other s.minValue s.maxValue with
  | ClampReaction.NONE => { s with value := s.value + other }
  | ClampReaction.MAXIMUM => { s with value := s.maxValue }
  | ClampReaction.MINIMUM => { s with value := s.minValue }

/-- Embeds the switch of `ClampedInteger::operator-=` on
`subtractReactionInteger` (clamped_numbers.cc lines 275-289), reached with
`other > 0`: the value is decreased on `NONE` and clamped to the matching
bound otherwise. -/
def ClampedInteger.subSwitch (s : ClampedInteger) (other : Int) :
    ClampedInteger :=
  match subtractReactionInteger s.value other s.minValue s.maxValue with
  | ClampReaction.NONE => { s with value := s.value - other }
  | ClampReaction.MAXIMUM => { s with value := s.maxValue }
  | ClampReaction.MINIMUM => { s with value := s.minValue }

/-- Embeds `ClampedInteger::operator+=` (clamped_numbers.cc lines 234-261):
a zero operand is discarded; a negative operand delegates to
`*this -= (-other)`, whose positive-operand branch is inlined here as
`subSwitch` (with `-other > 0` the delegate takes exactly that branch);
a positive operand runs the addition switch. -/
def ClampedInteger.addAssign (s : ClampedInteger) (other : Int) :
    ClampedInteger :=
  if other = 0 then s
  else if other < 0 then ClampedInteger.subSwitch s (-other)
  else ClampedInteger.addSwitch s other

/-- Embeds `ClampedInteger::operator-=` (clamped_numbers.cc lines 263-290):
a zero operand is discarded; a negative operand delegates to
`*this += (-other)`, whose positive-operand branch is inlined here as
`addSwitch` (with `-other > 0` the delegate takes exactly that branch);
a positive operand runs the subtraction switch. -/
def ClampedInteger.subAssign (s : ClampedInteger) (other : Int) :
    ClampedInteger :=
  if other = 0 then s
  else if other < 0 then ClampedInteger.addSwitch s (-other)
  else ClampedInteger.subSwitch s other

/-- Embeds `ClampedInteger::operator*=` (clamped_numbers.cc lines 292-315):
a zero value or operand stores zero directly; otherwise the verdict of
`multiplyReactionInteger` selects between multiplying and clamping. -/
def ClampedInteger.mulAssign (s : ClampedInteger) (other : Int) :
    ClampedInteger :=
  if s.value = 0 ∨ other = 0 then { s with value := 0 }
  else
    match multiplyReactionInteger s.value other s.minValue s.maxValue with
    | ClampReaction.NONE => { s with value := s.value * other }
    | ClampReaction.MAXIMUM => { s with value := s.maxValue }
    | ClampReaction.MINIMUM => { s with value := s.minValue }

/-- Embeds `ClampedInteger::operator/=` (clamped_numbers.cc lines 317-350):
a zero value or unit divisor is discarded; a zero divisor stores the
maximum for a positive value, the minimum for a negative one, and zero
otherwise; any other divisor runs the verdict of `divideReactionInteger`,
dividing with C++ truncation toward zero on `NONE`. -/
def ClampedInteger.divAssign (s : ClampedInteger) (other : Int) :
    ClampedInteger :=
  if s.value = 0 ∨ other = 1 then s
  else if other = 0 then
    if s.value > 0 then { s with value := s.maxValue }
    else if s.value < 0 then { s with value := s.minValue }
    else { s with value := 0 }
  else
    match divideReactionInteger s.value other s.minValue s.maxValue with
    | ClampReaction.NONE => { s with value := Int.tdiv s.value other }
    | ClampReaction.MAXIMUM => { s with value := s.maxValue }
    | ClampReaction.MINIMUM => { s with value := s.minValue }

/-- Embeds `ClampedInteger::operator%=` (clamped_numbers.cc lines 352-363):
the source evaluates `value % other` with no guard, so a zero operand is a
remainder by zero, undefined behavior in C++, embedded as `none`; otherwise
the raw remainder (C++ truncated remainder, `Int.tmod`) is clamped into the
bounds. -/
def ClampedInteger.modAssign (s : ClampedInteger) (other : Int) :
    Option ClampedInteger :=
  if other = 0 then none
  else if Int.tmod s.value other < s.minValue then
    some { s with value := s.minValue }
  else if Int.tmod s.value other > s.maxValue then
    some { s with value := s.maxValue }
  else some { s with value := Int.tmod s.value other }

/-- Embeds `BasicClampedNumber::operator*=` (clamped_numbers.cc lines
489-511) at an integral instantiation: a zero operand stores zero; the
next source branch, delegation to division for `other < 1 && other > -1`,
is unreachable for an integral type since only `other == 0` satisfies it
and that was already consumed; the remaining branch evaluates the pre-check
`maxValue / value >= other` unconditionally, so a zero stored value makes
this a division by zero, undefined behavior in C++, embedded as `none`;
with a nonzero value the pre-check (C++ truncated division) selects between
multiplying and clamping to the bound matching the sign of the result. -/
def BasicClampedNumber.mulAssign (s : BasicClampedNumber Int) (other : Int) :
    Option (BasicClampedNumber Int) :=
  if other = 0 then some { s with value := 0 }
  else if s.value = 0 then none
  else if Int.tdiv s.maxValue s.value ≥ other then
    some { s with value := s.value * other }
  else if (s.value > 0 ∧ other > 0) ∨ (s.value < 0 ∧ other < 0) then
    some { s with value := s.maxValue }
  else some { s with value := s.minValue }

/-- Embeds `addReactionDecimal` (clamped_numbers.cc lines 369-374): the
final revision reports `NONE` for every input. -/
def addReactionDecimal {α : Type} (_current _other _mn _mx : α) :
    ClampReaction :=
  ClampReaction.NONE

/-- Embeds `subtractReactionDecimal` (clamped_numbers.cc lines 376-381):
the final revision reports `NONE` for every input. -/
def subtractReactionDecimal {α : Type} (_current _other _mn _mx : α) :
    ClampReaction :=
  ClampReaction.NONE

/-- Embeds `multiplyReactionDecimal` (clamped_numbers.cc lines 383-388):
the final revision reports `NONE` for every input. -/
def multiplyReactionDecimal {α : Type} (_current _other _mn _mx : α) :
    ClampReaction :=
  ClampReaction.NONE

/-- Embeds `divideReactionDecimal` (clamped_numbers.cc lines 390-395): the
final revision reports `NONE` for every input. -/
def divideReactionDecimal {α : Type} (_current _other _mn _mx : α) :
    ClampReaction :=
  ClampReaction.NONE

/-- Embeds `ClampedDecimal::operator+=` (clamped_numbers.cc lines 397-401):
the body is `return *this;`, so the state is returned unchanged and the
operand is never used. -/
def ClampedDecimal.addAssign {α : Type} (s : ClampedDecimal α) (_other : α) :
    ClampedDecimal α :=
  s

/-- Embeds `ClampedDecimal::operator-=` (clamped_numbers.cc lines 403-407):
the body is `return *this;`, so the state is returned unchanged and the
operand is never used. -/
def ClampedDecimal.subAssign {α : Type} (s : ClampedDecimal α) (_other : α) :
    ClampedDecimal α :=
  s

/-- Embeds `ClampedDecimal::operator*=` (clamped_numbers.cc lines 409-413):
the body is `return *this;`, so the state is returned unchanged and the
operand is never used. -/
def ClampedDecimal.mulAssign {α : Type} (s : ClampedDecimal α) (_other : α) :
    ClampedDecimal α :=
  s

/-- Embeds `ClampedDecimal::operator/=` (clamped_numbers.cc lines 415-419):
the body is `return *this;`, so the state is returned unchanged and the
operand is never used. -/
def ClampedDecimal.divAssign {α : Type} (s : ClampedDecimal α) (_other : α) :
    ClampedDecimal α :=
  s

/-- Embeds `ClampedNaturalNumber::operator++(int)` (clamped_numbers.hh
lines 516-521): a snapshot is copied, the object is incremented by
`*this += 1`, and the pair (returned snapshot, state after the call) is
produced. -/
def ClampedNaturalNumber.postIncrement (w : Nat) (s : ClampedNaturalNumber) :
    ClampedNaturalNumber × ClampedNaturalNumber :=
  (s, ClampedNaturalNumber.addAssign w s 1)

/-- Embeds `ClampedNaturalNumber::operator--(int)` (clamped_numbers.hh
lines 529-534): a snapshot is copied, the object is decremented by
`*this -= 1`, and the pair (returned snapshot, state after the call) is
produced. -/
def ClampedNaturalNumber.postDecrement (w : Nat) (s : ClampedNaturalNumber) :
    ClampedNaturalNumber × ClampedNaturalNumber :=
  (s, ClampedNaturalNumber.subAssign w s 1)

/-- Embeds `ClampedInteger::operator++(int)` (clamped_numbers.hh lines
744-749): a snapshot is copied, the object is incremented by `*this += 1`,
and the pair (returned snapshot, state after the call) is produced. -/
def ClampedInteger.postIncrement (s : ClampedInteger) :
    ClampedInteger × ClampedInteger :=
  (s, ClampedInteger.addAssign s 1)

/-- Embeds `ClampedInteger::operator--(int)` (clamped_numbers.hh lines
757-762): a snapshot is copied, then the source executes `--(this)` rather
than `--(*this)`, a prefix decrement applied to the `this` pointer and not
to the object, so the object state is left untouched; the pair (returned
snapshot, state after the call) is produced with the state unchanged. -/
def ClampedInteger.postDecrement (s : ClampedInteger) :
    ClampedInteger × ClampedInteger :=
  (s, s)

end Clamped

open Clamped

/-- Helper: the value setter leaves both bounds unchanged. -/
theorem setValue_frame {α : Type} [LinearOrder α] (s : BasicClampedNumber α)
    (v : α) :
    (s.setValue v).minValue = s.minValue ∧
      (s.setValue v).maxValue = s.maxValue := by
  unfold BasicClampedNumber.setValue
  split
  · exact ⟨rfl, rfl⟩
  · split
    · exact ⟨rfl, rfl⟩
    · exact ⟨rfl, rfl⟩

/-- Helper: the Natural-domain compound addition leaves both bounds
unchanged. -/
theorem natural_addAssign_frame (w : Nat) (s : ClampedNaturalNumber)
    (v : Nat) :
    (ClampedNaturalNumber.addAssign w s v).minValue = s.minValue ∧
      (ClampedNaturalNumber.addAssign w s v).maxValue = s.maxValue := by
  unfold ClampedNaturalNumber.addAssign
  split
  · exact ⟨rfl, rfl⟩
  · split
    · exact ⟨rfl, rfl⟩
    · exact ⟨rfl, rfl⟩

/-- Helper: the Natural-domain compound subtraction leaves both bounds
unchanged. -/
theorem natural_subAssign_frame (w : Nat) (s : ClampedNaturalNumber)
    (v : Nat) :
    (ClampedNaturalNumber.subAssign w s v).minValue = s.minValue ∧
      (ClampedNaturalNumber.subAssign w s v).maxValue = s.maxValue := by
  unfold ClampedNaturalNumber.subAssign
  split
  · exact ⟨rfl, rfl⟩
  · split
    · exact ⟨rfl, rfl⟩
    · exact ⟨rfl, rfl⟩

/-- Helper: the Natural-domain compound multiplication leaves both bounds
unchanged. -/
theorem natural_mulAssign_frame (w : Nat) (s : ClampedNaturalNumber)
    (v : Nat) :
    (ClampedNaturalNumber.mulAssign w s v).minValue = s.minValue ∧
      (ClampedNaturalNumber.mulAssign w s v).maxValue = s.maxValue := by
  unfold ClampedNaturalNumber.mulAssign
  split
  · exact ⟨rfl, rfl⟩
  · split
    · exact ⟨rfl, rfl⟩
    · exact ⟨rfl, rfl⟩

/-- Helper: the Natural-domain compound division, where defined, leaves
both bounds unchanged. -/
theorem natural_divAssign_frame (s : ClampedNaturalNumber) (v : Nat)
    (t : ClampedNaturalNumber)
    (ht : ClampedNaturalNumber.divAssign s v = some t) :
    t.minValue = s.minValue ∧ t.maxValue = s.maxValue := by
  unfold ClampedNaturalNumber.divAssign at ht
  repeat' split at ht
  all_goals try exact Option.noConfusion ht
  all_goals injection ht with h
  all_goals subst h
  all_goals exact ⟨rfl, rfl⟩

/-- Helper: the Natural-domain compound remainder, where defined, leaves
both bounds unchanged. -/
theorem natural_modAssign_frame (s : ClampedNaturalNumber) (v : Nat)
    (t : ClampedNaturalNumber)
    (ht : ClampedNaturalNumber.modAssign s v = some t) :
    t.minValue = s.minValue ∧ t.maxValue = s.maxValue := by
  unfold ClampedNaturalNumber.modAssign at ht
  repeat' split at ht
  all_goals try exact Option.noConfusion ht
  all_goals injection ht with h
  all_goals subst h
  all_goals exact ⟨rfl, rfl⟩

/-- Helper: the Integer-domain addition switch leaves both bounds
unchanged. -/
theorem int_addSwitch_frame (s : ClampedInteger) (v : Int) :
    (ClampedInteger.addSwitch s v).minValue = s.minValue ∧
      (ClampedInteger.addSwitch s v).maxValue = s.maxValue := by
  unfold ClampedInteger.addSwitch
  split <;> exact ⟨rfl, rfl⟩

/-- Helper: the Integer-domain subtraction switch leaves both bounds
unchanged. -/
theorem int_subSwitch_frame (s : ClampedInteger) (v : Int) :
    (ClampedInteger.subSwitch s v).minValue = s.minValue ∧
      (ClampedInteger.subSwitch s v).maxValue = s.maxValue := by
  unfold ClampedInteger.subSwitch
  split <;> exact ⟨rfl, rfl⟩

/-- Helper: the Integer-domain compound addition leaves both bounds
unchanged. -/
theorem int_addAssign_frame (s : ClampedInteger) (v : Int) :
    (ClampedInteger.addAssign s v).minValue = s.minValue ∧
      (ClampedInteger.addAssign s v).maxValue = s.maxValue := by
  unfold ClampedInteger.addAssign
  split
  · exact ⟨rfl, rfl⟩
  · split
    · exact int_subSwitch_frame s (-v)
    · exact int_addSwitch_frame s v

/-- Helper: the Integer-domain compound subtraction leaves both bounds
unchanged. -/
theorem int_subAssign_frame (s : ClampedInteger) (v : Int) :
    (ClampedInteger.subAssign s v).minValue = s.minValue ∧
      (ClampedInteger.subAssign s v).maxValue = s.maxValue := by
  unfold ClampedInteger.subAssign
  split
  · exact ⟨rfl, rfl⟩
  · split
    · exact int_addSwitch_frame s (-v)
    · exact int_subSwitch_frame s v

/-- Helper: the Integer-domain compound multiplication leaves both bounds
unchanged. -/
theorem int_mulAssign_frame (s : ClampedInteger) (v : Int) :
    (ClampedInteger.mulAssign s v).minValue = s.minValue ∧
      (ClampedInteger.mulAssign s v).maxValue = s.maxValue := by
  unfold ClampedInteger.mulAssign
  split
  · exact ⟨rfl, rfl⟩
  · split <;> exact ⟨rfl, rfl⟩

/-- Helper: the Integer-domain compound division leaves both bounds
unchanged. -/
theorem int_divAssign_frame (s : ClampedInteger) (v : Int) :
    (ClampedInteger.divAssign s v).minValue = s.minValue ∧
      (ClampedInteger.divAssign s v).maxValue = s.maxValue := by
  unfold ClampedInteger.divAssign
  split
  · exact ⟨rfl, rfl⟩
  · split
    · split
      · exact ⟨rfl, rfl⟩
      · split <;> exact ⟨rfl, rfl⟩
    · split <;> exact ⟨rfl, rfl⟩

/-- Helper: the Integer-domain compound remainder, where defined, leaves
both bounds unchanged. -/
theorem int_modAssign_frame (s : ClampedInteger) (v : Int)
    (t : ClampedInteger) (ht : ClampedInteger.modAssign s v = some t) :
    t.minValue = s.minValue ∧ t.maxValue = s.maxValue := by
  unfold ClampedInteger.modAssign at ht
  repeat' split at ht
  all_goals try exact Option.noConfusion ht
  all_goals injection ht with h
  all_goals subst h
  all_goals exact ⟨rfl, rfl⟩

/-- C1: the claimed invariant `minValue ≤ value ≤ maxValue` does not
survive every operation. Evaluating the embedded code: for a ClampedInteger
with value 5 and bounds 0 and 10, the compound subtraction of 10 stores -5,
strictly below the stored minimum (the matching-signs branch of
`subtractReactionInteger` reports `NONE` exactly when it should clamp); and
a compound multiplication by 0 stores 0 even when the minimum is 2. -/
theorem claim_C1_invariant_violated :
    ClampedInteger.subAssign ⟨5, 0, 10⟩ 10 = ⟨-5, 0, 10⟩ ∧
    (ClampedInteger.subAssign ⟨5, 0, 10⟩ 10).value <
      (ClampedInteger.subAssign ⟨5, 0, 10⟩ 10).minValue ∧
    (ClampedInteger.mulAssign ⟨5, 2, 10⟩ 0).value <
      (ClampedInteger.mulAssign ⟨5, 2, 10⟩ 0).minValue := by
  decide

/-- C2: compound subtraction does not saturate at the minimum as claimed.
Evaluating the embedded code at the example given in the claim: value 5 and
bounds 0 and 10, subtracting 10 stores -5 in the Integer domain (the
matching-signs test of `subtractReactionInteger` is inverted, reporting
`NONE` when `value - min ≤ other`), and in the Natural domain at width 32
the unsigned update wraps to 4294967291 instead of clamping to 0. -/
theorem claim_C2_subtraction_inverted :
    (ClampedInteger.subAssign ⟨5, 0, 10⟩ 10).value = -5 ∧
    subtractReactionInteger 5 10 0 10 = ClampReaction.NONE ∧
    (ClampedNaturalNumber.subAssign 32 ⟨5, 0, 10⟩ 10).value = 4294967291 := by
  decide

/-- C3: the clamp verdicts are not always decided without a division by
zero. Evaluating the embedded code: the Natural-domain division of a number
with value 5 and bounds 0 and 10 by 2 evaluates the pre-check
`value / minValue` with a zero minimum, and the generic-base multiplication
of a number with value 0 and bounds -10 and 10 by 2 evaluates the pre-check
`maxValue / value` with a zero value; both are embedded as `none`
(undefined behavior in C++). -/
theorem claim_C3_precheck_divides_by_zero :
    ClampedNaturalNumber.divAssign ⟨5, 0, 10⟩ 2 = none ∧
    BasicClampedNumber.mulAssign ⟨0, -10, 10⟩ 2 = none := by
  decide

/-- C4: division by zero behaves as claimed in the Integer domain (the
three concrete examples evaluate to 10, -10 and 0) and in the Natural
domain for a nonzero value, but for a Natural-domain number with value 0
the operator guard `value != 0 && other != 1` fails and control flows off
the end of the non-void function without a return statement, embedded as
`none` (undefined behavior in C++), instead of the claimed defined
result 0. -/
theorem claim_C4_div_by_zero :
    (ClampedInteger.divAssign ⟨7, -10, 10⟩ 0).value = 10 ∧
    (ClampedInteger.divAssign ⟨-7, -10, 10⟩ 0).value = -10 ∧
    (ClampedInteger.divAssign ⟨0, -10, 10⟩ 0).value = 0 ∧
    ClampedNaturalNumber.divAssign ⟨7, 0, 10⟩ 0 = some ⟨10, 0, 10⟩ ∧
    ClampedNaturalNumber.divAssign ⟨0, 0, 10⟩ 0 = none := by
  decide

/-- C5: compound remainder with a zero divisor does not yield 0. Both
domains evaluate `value % other` with no zero guard, so at the concrete
example (value 7, bounds 0 and 10, divisor 0) the operation is embedded as
`none` (remainder by zero, undefined behavior in C++); for a nonzero
divisor the raw remainder is indeed clamped into the bounds, as the last
two conjuncts evaluate (remainder 1 clamps up to the minimum 5). -/
theorem claim_C5_mod_zero_undefined :
    ClampedInteger.modAssign ⟨7, 0, 10⟩ 0 = none ∧
    ClampedNaturalNumber.modAssign ⟨7, 0, 10⟩ 0 = none ∧
    ClampedNaturalNumber.modAssign ⟨7, 5, 10⟩ 2 = some ⟨5, 5, 10⟩ ∧
    ClampedInteger.modAssign ⟨7, 5, 10⟩ 2 = some ⟨5, 5, 10⟩ := by
  decide

/-- C6 counterexample: in the Decimal domain the compound addition does not
store the primitive sum of the old value and the operand: for a number with
value 1 and bounds -10 and 10, adding 1 leaves the stored value 1, not 2
(the operator body is `return *this;`). -/
theorem claim_C6_counterexample :
    (ClampedDecimal.addAssign (⟨1, -10, 10⟩ : ClampedDecimal Rat) 1).value ≠
      1 + 1 := by
  norm_num [ClampedDecimal.addAssign]

/-- C6 amended: in the Decimal domain every arithmetic compound assignment
has verdict `NONE` (Unchanged) and leaves the whole state - the stored
value included - completely unchanged; the primitive arithmetic is not
applied at all, and only a direct setValue clamps a proposed value into the
bounds. -/
theorem claim_C6_amended :
    (∀ (α : Type) (s : ClampedDecimal α) (d : α),
      ClampedDecimal.addAssign s d = s ∧
      ClampedDecimal.subAssign s d = s ∧
      ClampedDecimal.mulAssign s d = s ∧
      ClampedDecimal.divAssign s d = s ∧
      addReactionDecimal s.value d s.minValue s.maxValue =
        ClampReaction.NONE ∧
      subtractReactionDecimal s.value d s.minValue s.maxValue =
        ClampReaction.NONE ∧
      multiplyReactionDecimal s.value d s.minValue s.maxValue =
        ClampReaction.NONE ∧
      divideReactionDecimal s.value d s.minValue s.maxValue =
        ClampReaction.NONE) ∧
    (∀ (s : ClampedDecimal Rat) (v : Rat),
      (s.setValue v).value =
        if v < s.minValue then s.minValue
        else if v > s.maxValue then s.maxValue
        else v) := by
  refine ⟨fun α s d => ⟨rfl, rfl, rfl, rfl, rfl, rfl, rfl, rfl⟩, fun s v => ?_⟩
  unfold BasicClampedNumber.setValue
  split
  · simp_all
  · split <;> simp_all

/-- C7: construction stores the requested value unchanged, keeps the
requested minimum exactly when it is at most the value (raising it to the
value otherwise) and keeps the requested maximum exactly when it is at
least the value (lowering it to the value otherwise); concretely,
constructing with value 0, minimum 1 and maximum -1 yields the degenerate
triple (0, 0, 0). -/
theorem claim_C7_construction_stretch (α : Type) [LinearOrder α]
    (value mn mx : α) :
    ((BasicClampedNumber.construct value mn mx).value = value ∧
     (BasicClampedNumber.construct value mn mx).minValue =
       (if mn ≤ value then mn else value) ∧
     (BasicClampedNumber.construct value mn mx).maxValue =
       (if mx ≥ value then mx else value)) ∧
    BasicClampedNumber.construct (0 : Int) 1 (-1) = ⟨0, 0, 0⟩ :=
  ⟨⟨rfl, rfl, rfl⟩, by decide⟩

/-- C8: postfix decrement is broken in the Integer domain. Evaluating the
embedded code for a ClampedInteger with value 5 and bounds 4 and 10: the
snapshot returned is the pre-call state, but the post-call state is also
unchanged - the source executes `--(this)`, decrementing the `this`
pointer instead of the object - and differs from the state `*this -= 1`
would produce; the Natural-domain postfix decrement and the Integer
postfix increment do behave as claimed. -/
theorem claim_C8_postfix_decrement :
    ClampedInteger.postDecrement ⟨5, 4, 10⟩ = (⟨5, 4, 10⟩, ⟨5, 4, 10⟩) ∧
    ClampedInteger.subAssign ⟨5, 4, 10⟩ 1 = ⟨4, 4, 10⟩ ∧
    (ClampedInteger.postDecrement ⟨5, 4, 10⟩).2 ≠
      ClampedInteger.subAssign ⟨5, 4, 10⟩ 1 ∧
    ClampedNaturalNumber.postDecrement 32 ⟨5, 4, 10⟩ =
      (⟨5, 4, 10⟩, ⟨4, 4, 10⟩) ∧
    ClampedInteger.postIncrement ⟨5, 4, 10⟩ = (⟨5, 4, 10⟩, ⟨6, 4, 10⟩) := by
  decide

/-- C9: the explicit boolean conversion returns true exactly when the
stored value equals 0, and consequently a number whose bounds exclude zero
(while the invariant holds) always converts to false. -/
theorem claim_C9_bool_conversion (α : Type) [LinearOrder α] [Zero α]
    (s : BasicClampedNumber α) :
    (BasicClampedNumber.toBool s = true ↔ s.value = 0) ∧
    (s.minValue ≤ s.value → s.value ≤ s.maxValue →
      (0 < s.minValue ∨ s.maxValue < 0) →
      BasicClampedNumber.toBool s = false) := by
  constructor
  · simp [BasicClampedNumber.toBool]
  · intro h1 h2 h3
    have hne : s.value ≠ 0 := by
      rcases h3 with h | h
      · exact ne_of_gt (lt_of_lt_of_le h h1)
      · exact ne_of_lt (lt_of_le_of_lt h2 h)
    simp [BasicClampedNumber.toBool, hne]

/-- C10: every value-mutating operation - the value setter, minimize,
maximize and the compound arithmetic assignments of all three domains -
leaves the minValue and maxValue fields unchanged (for the operations whose
C++ execution can be undefined, this is stated on every defined result). -/
theorem claim_C10_bounds_frame :
    (∀ (α : Type) [LinearOrder α] (s : BasicClampedNumber α) (v : α),
      ((s.setValue v).minValue = s.minValue ∧
        (s.setValue v).maxValue = s.maxValue) ∧
      (s.minimize.minValue = s.minValue ∧
        s.minimize.maxValue = s.maxValue) ∧
      (s.maximize.minValue = s.minValue ∧
        s.maximize.maxValue = s.maxValue)) ∧
    (∀ (w : Nat) (s : ClampedNaturalNumber) (v : Nat),
      ((ClampedNaturalNumber.addAssign w s v).minValue = s.minValue ∧
        (ClampedNaturalNumber.addAssign w s v).maxValue = s.maxValue) ∧
      ((ClampedNaturalNumber.subAssign w s v).minValue = s.minValue ∧
        (ClampedNaturalNumber.subAssign w s v).maxValue = s.maxValue) ∧
      ((ClampedNaturalNumber.mulAssign w s v).minValue = s.minValue ∧
        (ClampedNaturalNumber.mulAssign w s v).maxValue = s.maxValue) ∧
      (∀ t, ClampedNaturalNumber.divAssign s v = some t →
        t.minValue = s.minValue ∧ t.maxValue = s.maxValue) ∧
      (∀ t, ClampedNaturalNumber.modAssign s v = some t →
        t.minValue = s.minValue ∧ t.maxValue = s.maxValue)) ∧
    (∀ (s : ClampedInteger) (v : Int),
      ((ClampedInteger.addAssign s v).minValue = s.minValue ∧
        (ClampedInteger.addAssign s v).maxValue = s.maxValue) ∧
      ((ClampedInteger.subAssign s v).minValue = s.minValue ∧
        (ClampedInteger.subAssign s v).maxValue = s.maxValue) ∧
      ((ClampedInteger.mulAssign s v).minValue = s.minValue ∧
        (ClampedInteger.mulAssign s v).maxValue = s.maxValue) ∧
      ((ClampedInteger.divAssign s v).minValue = s.minValue ∧
        (ClampedInteger.divAssign s v).maxValue = s.maxValue) ∧
      (∀ t, ClampedInteger.modAssign s v = some t →
        t.minValue = s.minValue ∧ t.maxValue = s.maxValue)) ∧
    (∀ (α : Type) (s : ClampedDecimal α) (v : α),
      ((ClampedDecimal.addAssign s v).minValue = s.minValue ∧
        (ClampedDecimal.addAssign s v).maxValue = s.maxValue) ∧
      ((ClampedDecimal.subAssign s v).minValue = s.minValue ∧
        (ClampedDecimal.subAssign s v).maxValue = s.maxValue) ∧
      ((ClampedDecimal.mulAssign s v).minValue = s.minValue ∧
        (ClampedDecimal.mulAssign s v).maxValue = s.maxValue) ∧
      ((ClampedDecimal.divAssign s v).minValue = s.minValue ∧
        (ClampedDecimal.divAssign s v).maxValue = s.maxValue)) := by
  refine ⟨?_, ?_, ?_, ?_⟩
  · intro α inst s v
    exact ⟨setValue_frame s v, ⟨rfl, rfl⟩, ⟨rfl, rfl⟩⟩
  · intro w s v
    exact ⟨natural_addAssign_frame w s v, natural_subAssign_frame w s v,
      natural_mulAssign_frame w s v,
      fun t ht => natural_divAssign_frame s v t ht,
      fun t ht => natural_modAssign_frame s v t ht⟩
  · intro s v
    exact ⟨int_addAssign_frame s v, int_subAssign_frame s v,
      int_mulAssign_frame s v, int_divAssign_frame s v,
      fun t ht => int_modAssign_frame s v t ht⟩
  · intro α s v
    exact ⟨⟨rfl, rfl⟩, ⟨rfl, rfl⟩, ⟨rfl, rfl⟩, ⟨rfl, rfl⟩⟩
